import Mathlib

/-!
Verification of the SIP (Systematic Investment Plan) calculator and the
portfolio planner of this repository.  JavaScript numbers are modelled as
exact rationals (ℚ); a division whose JS result would be non-finite
(NaN or ±Infinity, i.e. a zero denominator) is modelled through `jsDiv`,
which returns `none` in that case.  Investment periods are modelled with
natural-number years/months, matching the spec's data model
(periodMonths: positive integer); `Math.pow` is then ordinary monoid
power.  A function that `throw`s a JS `Error` is modelled with
`Except String`.
-/

namespace SIPCalc

/-- JS `Math.round`: nearest integer, halves toward +∞, i.e. ⌊x + 1/2⌋. -/
def jsRound (x : ℚ) : ℤ := Int.floor (x + 1/2)

/-- storage.js `round(value, decimals)`:
`Math.round(value * Math.pow(10, decimals)) / Math.pow(10, decimals)`. -/
def round (value : ℚ) (decimals : ℕ) : ℚ :=
  (jsRound (value * 10 ^ decimals) : ℚ) / 10 ^ decimals

/-- storage.js `yearsToMonths(years)`: `years * 12`. -/
def yearsToMonths (years : ℕ) : ℕ := years * 12

/-- storage.js `annualToMonthlyRate(annualRate)`: `annualRate / 100 / 12`. -/
def annualToMonthlyRate (annualRate : ℚ) : ℚ := annualRate / 100 / 12

/-- JS division.  When the denominator is zero the JS result is NaN
(for 0/0) or ±Infinity, i.e. a non-finite number: modelled as `none`. -/
def jsDiv (a b : ℚ) : Option ℚ := if b = 0 then none else some (a / b)

/-- Result record of `calculateSIP`. -/
structure SipResult where
  monthlyAmount : ℚ
  years : ℕ
  months : ℕ
  annualReturns : ℚ
  monthlyRate : ℚ
  totalInvested : ℚ
  maturityValue : ℚ
  returns : ℚ
  returnPercentage : ℚ
deriving Repr, DecidableEq

/-- `calculateSIP(monthlyAmount, years, annualReturns)`.
The JS guard `!x || x < 0` rejects `x = 0` (falsy) as well as negative
`x`; with natural-number `years` the clause `years < 0` is vacuous, so
that guard reduces to `years = 0`.  Every division below has a nonzero
denominator on its branch (validation forces `monthlyAmount > 0`,
`months > 0`, and on the taken branch `monthlyRate > 0`), so plain ℚ
division agrees with JS division here. -/
def calculateSIP (monthlyAmount : ℚ) (years : ℕ) (annualReturns : ℚ) :
    Except String SipResult :=
  if monthlyAmount = 0 ∨ monthlyAmount < 0 then
    Except.error ("Monthly amount must be a positive number")
  else if years = 0 then
    Except.error ("Years must be a positive number")
  else if annualReturns = 0 ∨ annualReturns < 0 then
    Except.error ("Annual returns must be a positive number")
  else
    let months := yearsToMonths years
    let monthlyRate := annualToMonthlyRate annualReturns
    let totalInvested := monthlyAmount * (months : ℚ)
    let futureValue :=
      if monthlyRate > 0 then
        monthlyAmount * (((1 + monthlyRate) ^ months - 1) / monthlyRate) * (1 + monthlyRate)
      else
        totalInvested
    let returns := futureValue - totalInvested
    let returnPercentage := returns / totalInvested * 100
    Except.ok {
      monthlyAmount := round monthlyAmount 2
      years := years
      months := months
      annualReturns := round annualReturns 2
      monthlyRate := round monthlyRate 6
      totalInvested := round totalInvested 2
      maturityValue := round futureValue 2
      returns := round returns 2
      returnPercentage := round returnPercentage 2 }

/-- `calculateSIPValue(monthlyAmount, months, monthlyRate)`: the SIP
future value at a point in time, with the explicit zero-rate fallback. -/
def calculateSIPValue (monthlyAmount : ℚ) (months : ℕ) (monthlyRate : ℚ) : ℚ :=
  if monthlyRate > 0 then
    monthlyAmount * (((1 + monthlyRate) ^ months - 1) / monthlyRate) * (1 + monthlyRate)
  else
    monthlyAmount * (months : ℚ)

/-- `calculateRequiredSIP(targetAmount, years, annualReturns)`:
inverse solver for the required monthly contribution. -/
def calculateRequiredSIP (targetAmount : ℚ) (years : ℕ) (annualReturns : ℚ) : ℚ :=
  let months := yearsToMonths years
  let monthlyRate := annualToMonthlyRate annualReturns
  if monthlyRate > 0 then
    let numerator := (1 + monthlyRate) ^ months - 1
    let denominator := numerator / monthlyRate * (1 + monthlyRate)
    round (targetAmount / denominator) 2
  else
    round (targetAmount / (months : ℚ)) 2

/-- Result record of `calculateLumpSum`.  `returnPercentage` is `none`
when the JS value is non-finite (the source divides by `principal`
without a guard, so `principal = 0` yields NaN). -/
structure LumpSumResult where
  principal : ℚ
  years : ℕ
  annualReturns : ℚ
  maturityValue : ℚ
  returns : ℚ
  returnPercentage : Option ℚ
deriving Repr, DecidableEq

/-- `calculateLumpSum(principal, years, annualReturns)`: no input
validation at all in the source; `returnPercentage = (returns / principal) * 100`. -/
def calculateLumpSum (principal : ℚ) (years : ℕ) (annualReturns : ℚ) : LumpSumResult :=
  let annualRate := annualReturns / 100
  let futureValue := principal * (1 + annualRate) ^ years
  let returns := futureValue - principal
  { principal := round principal 2
    years := years
    annualReturns := round annualReturns 2
    maturityValue := round futureValue 2
    returns := round returns 2
    returnPercentage := (jsDiv returns principal).map (fun q => round (q * 100) 2) }

/-- The `comparison` sub-record of `compareSIPvsLumpSum`. -/
structure SipLumpComparison where
  sipMaturity : ℚ
  lumpSumMaturity : ℚ
  difference : ℚ
  winner : String
deriving Repr, DecidableEq

/-- Result record of `compareSIPvsLumpSum`. -/
structure ComparisonResult where
  sip : SipResult
  lumpSum : LumpSumResult
  sipTotalInvested : ℚ
  comparison : SipLumpComparison
deriving Repr, DecidableEq

/-- `compareSIPvsLumpSum(monthlySIP, lumpSumAmount, years, annualReturns)`.
A validation error thrown by `calculateSIP` propagates (`Except.map`).
`winner` is `'SIP'` exactly when `sipMaturity > lumpSumMaturity`
(strict), otherwise `'Lump Sum'`. -/
def compareSIPvsLumpSum (monthlySIP lumpSumAmount : ℚ) (years : ℕ)
    (annualReturns : ℚ) : Except String ComparisonResult :=
  (calculateSIP monthlySIP years annualReturns).map fun sipResult =>
    let lumpSumResult := calculateLumpSum lumpSumAmount years annualReturns
    let totalSIPInvested := monthlySIP * (yearsToMonths years : ℚ)
    { sip := sipResult
      lumpSum := lumpSumResult
      sipTotalInvested := totalSIPInvested
      comparison := {
        sipMaturity := sipResult.maturityValue
        lumpSumMaturity := lumpSumResult.maturityValue
        difference := round (sipResult.maturityValue - lumpSumResult.maturityValue) 2
        winner := if sipResult.maturityValue > lumpSumResult.maturityValue
                  then "SIP" else "Lump Sum" } }

/-- The `for (let month = interval; month <= totalMonths; month += interval)`
loop of `calculateSIPProjections`, as the list of month values at which
the body pushes a sample.  The fuel argument only forces termination in
Lean; for `interval ≥ 1`, fuel `totalMonths + 1` is never exhausted
(each iteration advances `month` by at least 1), so the function equals
the JS loop on the whole domain the spec admits (positive interval). -/
def projLoop (interval totalMonths : ℕ) : ℕ → ℕ → List ℕ
  | 0, _ => []
  | fuel + 1, month =>
    if month ≤ totalMonths then
      month :: projLoop interval totalMonths fuel (month + interval)
    else []

/-- The sequence of sampled month counts of `calculateSIPProjections`:
the loop above followed by the `totalMonths % interval !== 0` tail
sample. -/
def sampleMonths (interval totalMonths : ℕ) : List ℕ :=
  projLoop interval totalMonths (totalMonths + 1) interval ++
    (if totalMonths % interval ≠ 0 then [totalMonths] else [])

/-- Chart data of `calculateSIPProjections` (the `labels` strings carry
the same month sequence as `months`; the three value arrays are pushed
in lock-step with it, each a pointwise function of the month). -/
structure ProjectionSeries where
  months : List ℕ
  invested : List ℚ
  maturity : List ℚ
  returns : List ℚ
deriving Repr, DecidableEq

/-- `calculateSIPProjections(monthlyAmount, years, annualReturns, interval)`. -/
def calculateSIPProjections (monthlyAmount : ℚ) (years : ℕ) (annualReturns : ℚ)
    (interval : ℕ) : ProjectionSeries :=
  let monthlyRate := annualToMonthlyRate annualReturns
  let totalMonths := yearsToMonths years
  let pts := sampleMonths interval totalMonths
  { months := pts
    invested := pts.map fun month => round (monthlyAmount * (month : ℚ)) 2
    maturity := pts.map fun month =>
      round (calculateSIPValue monthlyAmount month monthlyRate) 2
    returns := pts.map fun month =>
      round (calculateSIPValue monthlyAmount month monthlyRate
        - monthlyAmount * (month : ℚ)) 2 }

/-- Risk-tolerance labels accepted by planner.js; any string other than
the three known ones (`allocations[level] || allocations.moderate`)
falls back to the moderate table, modelled by `other`. -/
inductive RiskLevel where
  | conservative
  | moderate
  | aggressive
  | other
deriving Repr, DecidableEq

/-- Allocation record of planner.js (percentages per asset class). -/
structure Allocation where
  sip : ℚ
  stocks : ℚ
  bonds : ℚ
  realestate : ℚ
  gold : ℚ
deriving Repr, DecidableEq

/-- planner.js `getRecommendedAllocation(riskLevel)`: static lookup
table; unknown levels fall back to the moderate row. -/
def getRecommendedAllocation : RiskLevel → Allocation
  | RiskLevel.conservative =>
    { sip := 40, stocks := 20, bonds := 30, realestate := 5, gold := 5 }
  | RiskLevel.aggressive =>
    { sip := 30, stocks := 50, bonds := 10, realestate := 5, gold := 5 }
  | _ =>
    { sip := 40, stocks := 30, bonds := 20, realestate := 5, gold := 5 }

/-- Constraints record passed to `optimizePortfolioAllocation`.  A JS
`undefined` field is `none`; `constraints.timeHorizon` is also falsy
when it equals 0, handled explicitly below. -/
structure PlannerConstraints where
  riskTolerance : Option RiskLevel
  timeHorizon : Option ℚ
deriving Repr, DecidableEq

/-- Sum of the five allocation percentages
(`Object.values(allocation).reduce((sum, val) => sum + val, 0)`). -/
def allocTotal (a : Allocation) : ℚ :=
  a.sip + a.stocks + a.bonds + a.realestate + a.gold

/-- planner.js `optimizePortfolioAllocation(constraints)`: recommended
table, time-horizon adjustment with clamps, then the `total !== 100`
normalization that rounds `(value / total) * 100` to 0 decimals. -/
def optimizePortfolioAllocation (constraints : PlannerConstraints) : Allocation :=
  let riskTolerance := constraints.riskTolerance.getD RiskLevel.moderate
  let base := getRecommendedAllocation riskTolerance
  let allocation :=
    match constraints.timeHorizon with
    | none => base
    | some h =>
      if h = 0 then base
      else if h < 5 then
        { base with stocks := max 10 (base.stocks - 10)
                    bonds := min 40 (base.bonds + 10) }
      else if h > 15 then
        { base with stocks := min 60 (base.stocks + 10)
                    bonds := max 10 (base.bonds - 10) }
      else base
  let total := allocTotal allocation
  if total ≠ 100 then
    { sip := round (allocation.sip / total * 100) 0
      stocks := round (allocation.stocks / total * 100) 0
      bonds := round (allocation.bonds / total * 100) 0
      realestate := round (allocation.realestate / total * 100) 0
      gold := round (allocation.gold / total * 100) 0 }
  else allocation

/-- Projection of an `Except` SIP result onto `maturityValue`
(0 on the error side, which the theorems below never reach). -/
def maturityValueOf (e : Except String SipResult) : ℚ :=
  match e with
  | Except.ok r => r.maturityValue
  | Except.error _ => 0

/-- Projection onto `totalInvested`. -/
def totalInvestedOf (e : Except String SipResult) : ℚ :=
  match e with
  | Except.ok r => r.totalInvested
  | Except.error _ => 0

/-- Whether the call threw. -/
def isError {α : Type} (e : Except String α) : Bool :=
  match e with
  | Except.ok _ => false
  | Except.error _ => true

/-- Winner string of a comparison, `none` when the call threw. -/
def comparisonWinner (e : Except String ComparisonResult) : Option String :=
  match e with
  | Except.ok r => some r.comparison.winner
  | Except.error _ => none

theorem maturityValueOf_ok (r : SipResult) :
    maturityValueOf (Except.ok r) = r.maturityValue := rfl

theorem totalInvestedOf_ok (r : SipResult) :
    totalInvestedOf (Except.ok r) = r.totalInvested := rfl

/-- `round` is monotone in the value. -/
theorem round_mono (d : ℕ) {a b : ℚ} (h : a ≤ b) : round a d ≤ round b d := by
  unfold round jsRound
  have h10 : (0:ℚ) < 10 ^ d := by positivity
  have hf : (Int.floor (a * 10 ^ d + 1/2) : ℚ) ≤ (Int.floor (b * 10 ^ d + 1/2) : ℚ) := by
    have hab : a * 10 ^ d + 1/2 ≤ b * 10 ^ d + 1/2 := by nlinarith
    exact_mod_cast Int.floor_mono hab
  exact (div_le_div_iff_of_pos_right h10).mpr hf

/-- Rounding to `d` decimals moves a value by at most half an ulp. -/
theorem round_err (v : ℚ) (d : ℕ) : |round v d - v| ≤ 1 / (2 * 10 ^ d) := by
  unfold round jsRound
  have h10 : (0:ℚ) < 10 ^ d := by positivity
  have hle : (Int.floor (v * 10 ^ d + 1/2) : ℚ) ≤ v * 10 ^ d + 1/2 := Int.floor_le _
  have hgt : v * 10 ^ d + 1/2 - 1 < (Int.floor (v * 10 ^ d + 1/2) : ℚ) :=
    Int.sub_one_lt_floor _
  have e : (Int.floor (v * 10 ^ d + 1/2) : ℚ) / 10 ^ d - v =
      ((Int.floor (v * 10 ^ d + 1/2) : ℚ) - v * 10 ^ d) / 10 ^ d := by
    field_simp
    ring
  have hhalf : 1 / (2 * 10 ^ d) * 10 ^ d = (1:ℚ) / 2 := by
    field_simp
    ring
  rw [abs_le, e]
  constructor
  · rw [le_div_iff₀ h10]
    have hneg : -(1 / (2 * 10 ^ d)) * 10 ^ d = -((1:ℚ) / 2) := by
      field_simp
      ring
    linarith [hgt, hneg]
  · rw [div_le_iff₀ h10]
    linarith [hle, hhalf]

/-- Unfolding of `calculateSIP` on the valid domain: validation passes and
the positive-rate branch is taken. -/
theorem calculateSIP_ok (m r : ℚ) (y : ℕ) (hm : 0 < m) (hy : 0 < y) (hr : 0 < r) :
    calculateSIP m y r = Except.ok {
      monthlyAmount := round m 2
      years := y
      months := yearsToMonths y
      annualReturns := round r 2
      monthlyRate := round (annualToMonthlyRate r) 6
      totalInvested := round (m * (yearsToMonths y : ℚ)) 2
      maturityValue := round (m * (((1 + annualToMonthlyRate r) ^ yearsToMonths y - 1) /
        annualToMonthlyRate r) * (1 + annualToMonthlyRate r)) 2
      returns := round (m * (((1 + annualToMonthlyRate r) ^ yearsToMonths y - 1) /
        annualToMonthlyRate r) * (1 + annualToMonthlyRate r) - m * (yearsToMonths y : ℚ)) 2
      returnPercentage := round ((m * (((1 + annualToMonthlyRate r) ^ yearsToMonths y - 1) /
        annualToMonthlyRate r) * (1 + annualToMonthlyRate r) - m * (yearsToMonths y : ℚ)) /
        (m * (yearsToMonths y : ℚ)) * 100) 2 } := by
  have hmr : 0 < annualToMonthlyRate r := by
    unfold annualToMonthlyRate; positivity
  have h1 : ¬(m = 0 ∨ m < 0) := by
    rintro (h | h)
    · exact hm.ne' h
    · exact absurd h (not_lt.mpr hm.le)
  have h3 : ¬(r = 0 ∨ r < 0) := by
    rintro (h | h)
    · exact hr.ne' h
    · exact absurd h (not_lt.mpr hr.le)
  simp only [calculateSIP, h1, h3, hy.ne', hmr, gt_iff_lt, if_true, if_false, ite_true,
    ite_false, reduceIte]

/-- The unrounded SIP future value dominates the invested amount
(Bernoulli inequality). -/
theorem sip_fv_ge_invested (m mr : ℚ) (n : ℕ) (hm : 0 ≤ m) (hmr : 0 < mr) :
    m * (n : ℚ) ≤ m * (((1 + mr) ^ n - 1) / mr) * (1 + mr) := by
  have hb : 1 + (n : ℚ) * mr ≤ (1 + mr) ^ n := one_add_mul_le_pow (by linarith) n
  have hq : (n : ℚ) ≤ ((1 + mr) ^ n - 1) / mr := by
    rw [le_div_iff₀ hmr]; linarith
  have hq0 : (0:ℚ) ≤ ((1 + mr) ^ n - 1) / mr := le_trans (Nat.cast_nonneg n) hq
  have h1r : (1:ℚ) ≤ 1 + mr := by linarith
  calc m * (n:ℚ) = m * (n:ℚ) * 1 := by ring
    _ ≤ m * (((1 + mr) ^ n - 1) / mr) * (1 + mr) := by
        apply mul_le_mul (mul_le_mul_of_nonneg_left hq hm) h1r (by norm_num)
          (mul_nonneg hm hq0)

/-- C1: on the valid domain the reported maturity value is the
closed-form annuity future value rounded to 2 decimals, and the worked
example 5000 / 10y / 12% reproduces every reported field of the spec. -/
theorem calculateSIP_formula_and_example :
    (∀ (m r : ℚ) (y : ℕ), 0 < m → 0 < y → 0 < r →
      maturityValueOf (calculateSIP m y r) =
        round (m * (((1 + annualToMonthlyRate r) ^ (y * 12) - 1) / annualToMonthlyRate r) *
          (1 + annualToMonthlyRate r)) 2) ∧
    calculateSIP 5000 10 12 = Except.ok {
      monthlyAmount := 5000, years := 10, months := 120, annualReturns := 12,
      monthlyRate := 0.01, totalInvested := 600000, maturityValue := 1161695.38,
      returns := 561695.38, returnPercentage := 93.62 } ∧
    |maturityValueOf (calculateSIP 5000 10 12) - 1161695.38| ≤ 0.5 := by
  have hconc : calculateSIP 5000 10 12 = Except.ok {
      monthlyAmount := 5000, years := 10, months := 120, annualReturns := 12,
      monthlyRate := 0.01, totalInvested := 600000, maturityValue := 1161695.38,
      returns := 561695.38, returnPercentage := 93.62 } := by
    simp only [calculateSIP, yearsToMonths, annualToMonthlyRate, round, jsRound]
    norm_num
  refine ⟨?_, hconc, ?_⟩
  · intro m r y hm hy hr
    rw [calculateSIP_ok m r y hm hy hr, maturityValueOf_ok]
    rfl
  · rw [hconc, maturityValueOf_ok]
    norm_num

/-- C1 witness: the general formula instantiated at the spec's example. -/
theorem calculateSIP_formula_and_example_witness :
    0 < (5000:ℚ) ∧ 0 < 10 ∧ 0 < (12:ℚ) ∧
    maturityValueOf (calculateSIP 5000 10 12) =
      round (5000 * (((1 + annualToMonthlyRate 12) ^ (10 * 12) - 1) / annualToMonthlyRate 12) *
        (1 + annualToMonthlyRate 12)) 2 :=
  ⟨by norm_num, by norm_num, by norm_num,
    calculateSIP_formula_and_example.1 5000 12 10 (by norm_num) (by norm_num) (by norm_num)⟩

/-- C2: at a literal zero rate `calculateSIP` does fail — the falsy
check `!annualReturns` rejects 0 before the zero-rate fallback branch
can run — while that (unreachable) fallback, as implemented in
`calculateSIPValue`, would return exactly contribution × months. -/
theorem calculateSIP_zeroRate_rejected :
    calculateSIP 1000 1 0 = Except.error ("Annual returns must be a positive number") ∧
    calculateSIPValue 1000 12 0 = 12000 := by
  constructor
  · simp [calculateSIP]
  · simp only [calculateSIPValue]
    norm_num

/-- C3 counterexample: a zero period is rejected although it is neither
a non-positive contribution, a negative period, nor a negative rate. -/
theorem calculateSIP_zero_period_error :
    calculateSIP 1000 0 12 = Except.error ("Years must be a positive number") ∧
    (0:ℚ) < 1000 ∧ (0:ℚ) < 12 := by
  refine ⟨?_, by norm_num, by norm_num⟩
  simp [calculateSIP]

/-- C3 (amended): `calculateSIP` throws a validation error naming the
offending field if and only if the contribution is non-positive, the
period is non-positive (zero included), or the rate is non-positive
(zero included); on every other input it returns the result record with
the inputs echoed (rounded for display only), never clamped. -/
theorem calculateSIP_validation_iff :
    ∀ (m r : ℚ) (y : ℕ),
      (isError (calculateSIP m y r) = true ↔ m ≤ 0 ∨ y = 0 ∨ r ≤ 0) ∧
      (0 < m → 0 < y → 0 < r → calculateSIP m y r = Except.ok {
        monthlyAmount := round m 2
        years := y
        months := yearsToMonths y
        annualReturns := round r 2
        monthlyRate := round (annualToMonthlyRate r) 6
        totalInvested := round (m * (yearsToMonths y : ℚ)) 2
        maturityValue := round (m * (((1 + annualToMonthlyRate r) ^ yearsToMonths y - 1) /
          annualToMonthlyRate r) * (1 + annualToMonthlyRate r)) 2
        returns := round (m * (((1 + annualToMonthlyRate r) ^ yearsToMonths y - 1) /
          annualToMonthlyRate r) * (1 + annualToMonthlyRate r) - m * (yearsToMonths y : ℚ)) 2
        returnPercentage := round ((m * (((1 + annualToMonthlyRate r) ^ yearsToMonths y - 1) /
          annualToMonthlyRate r) * (1 + annualToMonthlyRate r) - m * (yearsToMonths y : ℚ)) /
          (m * (yearsToMonths y : ℚ)) * 100) 2 }) := by
  intro m r y
  constructor
  · by_cases hm : m ≤ 0
    · have hc : m = 0 ∨ m < 0 := by
        rcases lt_or_eq_of_le hm with h' | h'
        · exact Or.inr h'
        · exact Or.inl h'
      simp only [calculateSIP]
      rw [if_pos hc]
      simp [isError, hm]
    · have hc : ¬(m = 0 ∨ m < 0) := by
        push_neg
        exact ⟨fun h => hm (le_of_eq h), (not_le.mp hm).le⟩
      simp only [calculateSIP]
      rw [if_neg hc]
      by_cases hy : y = 0
      · rw [if_pos hy]
        simp [isError, hy]
      · rw [if_neg hy]
        by_cases hr : r ≤ 0
        · have hc3 : r = 0 ∨ r < 0 := by
            rcases lt_or_eq_of_le hr with h' | h'
            · exact Or.inr h'
            · exact Or.inl h'
          rw [if_pos hc3]
          simp [isError, hr]
        · have hc3 : ¬(r = 0 ∨ r < 0) := by
            push_neg
            exact ⟨fun h => hr (le_of_eq h), (not_le.mp hr).le⟩
          rw [if_neg hc3]
          simp [isError, hm, hy, hr]
  · intro hm hy hr
    exact calculateSIP_ok m r y hm (Nat.pos_of_ne_zero (by omega)) hr

/-- C3 witness: the characterization applied at 100 / 1y / 12%. -/
theorem calculateSIP_validation_iff_witness :
    0 < (100:ℚ) ∧ 0 < 1 ∧ 0 < (12:ℚ) ∧
    calculateSIP 100 1 12 = Except.ok {
      monthlyAmount := round 100 2
      years := 1
      months := yearsToMonths 1
      annualReturns := round 12 2
      monthlyRate := round (annualToMonthlyRate 12) 6
      totalInvested := round (100 * (yearsToMonths 1 : ℚ)) 2
      maturityValue := round (100 * (((1 + annualToMonthlyRate 12) ^ yearsToMonths 1 - 1) /
        annualToMonthlyRate 12) * (1 + annualToMonthlyRate 12)) 2
      returns := round (100 * (((1 + annualToMonthlyRate 12) ^ yearsToMonths 1 - 1) /
        annualToMonthlyRate 12) * (1 + annualToMonthlyRate 12) - 100 * (yearsToMonths 1 : ℚ)) 2
      returnPercentage := round ((100 * (((1 + annualToMonthlyRate 12) ^ yearsToMonths 1 - 1) /
        annualToMonthlyRate 12) * (1 + annualToMonthlyRate 12) - 100 * (yearsToMonths 1 : ℚ)) /
        (100 * (yearsToMonths 1 : ℚ)) * 100) 2 } :=
  ⟨by norm_num, by norm_num, by norm_num,
    (calculateSIP_validation_iff 100 12 1).2 (by norm_num) (by norm_num) (by norm_num)⟩

/-- C4: on the valid domain the reported maturity value is at least the
reported invested total, and the point-in-time SIP value dominates the
invested amount for every non-negative rate (zero-rate branch
included). -/
theorem maturityValue_ge_totalInvested :
    (∀ (m r : ℚ) (y : ℕ), 0 < m → 0 < y → 0 < r →
      totalInvestedOf (calculateSIP m y r) ≤ maturityValueOf (calculateSIP m y r)) ∧
    (∀ (m mr : ℚ) (months : ℕ), 0 ≤ m → 0 ≤ mr →
      m * (months : ℚ) ≤ calculateSIPValue m months mr) := by
  constructor
  · intro m r y hm hy hr
    have hmr : 0 < annualToMonthlyRate r := by
      unfold annualToMonthlyRate; positivity
    rw [calculateSIP_ok m r y hm hy hr, maturityValueOf_ok, totalInvestedOf_ok]
    exact round_mono 2 (sip_fv_ge_invested m (annualToMonthlyRate r) (yearsToMonths y) hm.le hmr)
  · intro m mr months hm hmr
    unfold calculateSIPValue
    by_cases h : mr > 0
    · rw [if_pos h]
      exact sip_fv_ge_invested m mr months hm h
    · rw [if_neg h]

/-- C4 witness: both parts at a concrete point (100 / 1y / 12%, and the
zero-rate branch at 100 × 12 months). -/
theorem maturityValue_ge_totalInvested_witness :
    (0 < (100:ℚ) ∧ 0 < 1 ∧ 0 < (12:ℚ) ∧
      totalInvestedOf (calculateSIP 100 1 12) ≤ maturityValueOf (calculateSIP 100 1 12)) ∧
    ((0:ℚ) ≤ 100 ∧ (0:ℚ) ≤ 0 ∧ 100 * ((12:ℕ) : ℚ) ≤ calculateSIPValue 100 12 0) :=
  ⟨⟨by norm_num, by norm_num, by norm_num,
      maturityValue_ge_totalInvested.1 100 12 1 (by norm_num) (by norm_num) (by norm_num)⟩,
    ⟨by norm_num, le_refl 0,
      maturityValue_ge_totalInvested.2 100 0 12 (by norm_num) (le_refl 0)⟩⟩

/-- C9 counterexample: `calculateLumpSum` has no fallback for a zero
principal; the `returns / principal` division is 0/0, i.e. NaN
(modelled as `none`). -/
theorem calculateLumpSum_zero_principal_nonfinite :
    (calculateLumpSum 0 5 10).returnPercentage = none := by
  simp [calculateLumpSum, jsDiv]

/-- C9 (amended): the degenerate-input fallbacks exist for the zero-rate
branch of the SIP value, and every `calculateLumpSum` field other than
`returnPercentage` is always a finite rational, but `returnPercentage`
is finite exactly when the principal is nonzero: at principal = 0 it is
NaN. -/
theorem calculateLumpSum_returnPercentage_finite_iff :
    (∀ (p r : ℚ) (y : ℕ),
      ((calculateLumpSum p y r).returnPercentage).isSome = true ↔ p ≠ 0) ∧
    (∀ (m : ℚ) (months : ℕ), calculateSIPValue m months 0 = m * (months : ℚ)) := by
  constructor
  · intro p r y
    by_cases hp : p = 0 <;> simp [calculateLumpSum, jsDiv, hp]
  · intro m months
    simp [calculateSIPValue]

/-- C10: with an aggressive risk tolerance and a time horizon above 15
years the bonds clamp (`max(10, 10 - 10)`) makes the adjusted table sum
to 110, and the integer-rounded normalization then yields
27 + 55 + 9 + 5 + 5 = 101, not 100. -/
theorem optimizePortfolio_aggressive_longHorizon_sum :
    optimizePortfolioAllocation
        { riskTolerance := some RiskLevel.aggressive, timeHorizon := some 16 } =
      { sip := 27, stocks := 55, bonds := 9, realestate := 5, gold := 5 } ∧
    allocTotal (optimizePortfolioAllocation
        { riskTolerance := some RiskLevel.aggressive, timeHorizon := some 16 }) = 101 := by
  have h : optimizePortfolioAllocation
      { riskTolerance := some RiskLevel.aggressive, timeHorizon := some 16 } =
      { sip := 27, stocks := 55, bonds := 9, realestate := 5, gold := 5 } := by
    simp only [optimizePortfolioAllocation, getRecommendedAllocation, allocTotal, round, jsRound]
    norm_num
  refine ⟨h, ?_⟩
  rw [h]
  norm_num [allocTotal]

/-- On the positive-rate branch the SIP value is the contribution times
the sum of the compounding factors of the individual instalments. -/
theorem calculateSIPValue_eq_sum (m mr : ℚ) (n : ℕ) (hmr : 0 < mr) :
    calculateSIPValue m n mr = m * ∑ k ∈ Finset.range n, (1 + mr) ^ (k + 1) := by
  have hx : (1:ℚ) + mr ≠ 1 := by
    intro h
    exact hmr.ne' (by linarith)
  have hgeom : ∑ k ∈ Finset.range n, (1 + mr) ^ k = ((1 + mr) ^ n - 1) / mr := by
    rw [geom_sum_eq hx n]
    congr 1
    ring
  unfold calculateSIPValue
  rw [if_pos hmr, ← hgeom, mul_assoc, Finset.sum_mul]
  congr 1
  apply Finset.sum_congr rfl
  intro k _
  rw [pow_succ]

/-- C5: the point-in-time SIP value is strictly increasing in the month
count and strictly increasing in the monthly rate, for positive
contribution, rate and period. -/
theorem calculateSIPValue_strictMono :
    (∀ (P r : ℚ) (m₁ m₂ : ℕ), 0 < P → 0 < r → m₁ < m₂ →
      calculateSIPValue P m₁ r < calculateSIPValue P m₂ r) ∧
    (∀ (P r₁ r₂ : ℚ) (n : ℕ), 0 < P → 0 < n → 0 < r₁ → r₁ < r₂ →
      calculateSIPValue P n r₁ < calculateSIPValue P n r₂) := by
  constructor
  · intro P r m₁ m₂ hP hr h
    unfold calculateSIPValue
    rw [if_pos hr, if_pos hr]
    have hpow : (1 + r) ^ m₁ < (1 + r) ^ m₂ := pow_lt_pow_right₀ (by linarith) h
    have hq : ((1 + r) ^ m₁ - 1) / r < ((1 + r) ^ m₂ - 1) / r := by
      rw [div_lt_div_iff_of_pos_right hr]
      linarith
    have h1r : (0:ℚ) < 1 + r := by linarith
    exact mul_lt_mul_of_pos_right (mul_lt_mul_of_pos_left hq hP) h1r
  · intro P r₁ r₂ n hP hn h1 h12
    rw [calculateSIPValue_eq_sum P r₁ n h1, calculateSIPValue_eq_sum P r₂ n (h1.trans h12)]
    apply mul_lt_mul_of_pos_left ?_ hP
    apply Finset.sum_lt_sum_of_nonempty (Finset.nonempty_range_iff.mpr hn.ne')
    intro k _
    exact pow_lt_pow_left₀ (by linarith) (by linarith) (Nat.succ_ne_zero k)

/-- C5 witness: both monotonicity parts at concrete points
(12 < 24 months at rate 1/100; rate 1/100 < 2/100 over 12 months). -/
theorem calculateSIPValue_strictMono_witness :
    (0 < (1000:ℚ) ∧ 0 < (1/100:ℚ) ∧ 12 < 24 ∧
      calculateSIPValue 1000 12 (1/100) < calculateSIPValue 1000 24 (1/100)) ∧
    (0 < (1000:ℚ) ∧ 0 < 12 ∧ 0 < (1/100:ℚ) ∧ (1/100:ℚ) < 2/100 ∧
      calculateSIPValue 1000 12 (1/100) < calculateSIPValue 1000 12 (2/100)) :=
  ⟨⟨by norm_num, by norm_num, by norm_num,
      calculateSIPValue_strictMono.1 1000 (1/100) 12 24 (by norm_num) (by norm_num)
        (by norm_num)⟩,
    ⟨by norm_num, by norm_num, by norm_num, by norm_num,
      calculateSIPValue_strictMono.2 1000 (1/100) (2/100) 12 (by norm_num) (by norm_num)
        (by norm_num) (by norm_num)⟩⟩

/-- C6: composing the inverse contribution solver with the forward
calculation recovers the target up to the tolerance induced by its two
2-decimal roundings (half an ulp on the contribution, amplified by the
annuity factor, plus half an ulp on the reported maturity value); at a
zero rate the solver returns the target divided by the month count. -/
theorem calculateRequiredSIP_roundtrip :
    (∀ (t r : ℚ) (y : ℕ), 0 < y → 0 < r → 0 < calculateRequiredSIP t y r →
      |maturityValueOf (calculateSIP (calculateRequiredSIP t y r) y r) - t| ≤
        (((1 + annualToMonthlyRate r) ^ yearsToMonths y - 1) / annualToMonthlyRate r *
          (1 + annualToMonthlyRate r) + 1) / 200) ∧
    (∀ (t : ℚ) (y : ℕ), calculateRequiredSIP t y 0 = round (t / (yearsToMonths y : ℚ)) 2) := by
  constructor
  · intro t r y hy hr hreq
    have hmr : 0 < annualToMonthlyRate r := by
      unfold annualToMonthlyRate; positivity
    set r' := annualToMonthlyRate r with hr'
    set n := yearsToMonths y with hn
    have hn0 : n ≠ 0 := by
      rw [hn]; unfold yearsToMonths; omega
    set D := ((1 + r') ^ n - 1) / r' * (1 + r') with hD
    have hDpos : 0 < D := by
      have h1n : 1 < (1 + r') ^ n := one_lt_pow₀ (by linarith) hn0
      exact mul_pos (div_pos (by linarith) hmr) (by linarith)
    have hreq_eq : calculateRequiredSIP t y r = round (t / D) 2 := by
      simp only [calculateRequiredSIP, ← hr', ← hn, ← hD]
      rw [if_pos hmr]
    have hfv : maturityValueOf (calculateSIP (calculateRequiredSIP t y r) y r) =
        round (calculateRequiredSIP t y r * D) 2 := by
      rw [calculateSIP_ok (calculateRequiredSIP t y r) r y hreq hy hr, maturityValueOf_ok]
      simp only [← hr', ← hn, hD, mul_assoc]
    have hconv : (1:ℚ) / (2 * 10 ^ 2) = 1 / 200 := by norm_num
    have h1 : |calculateRequiredSIP t y r - t / D| ≤ 1/200 := by
      rw [hreq_eq, ← hconv]
      exact round_err (t / D) 2
    have h2 : |calculateRequiredSIP t y r * D - t| ≤ D / 200 := by
      have he : calculateRequiredSIP t y r * D - t = (calculateRequiredSIP t y r - t / D) * D := by
        field_simp
      rw [he, abs_mul, abs_of_pos hDpos]
      calc |calculateRequiredSIP t y r - t / D| * D ≤ 1/200 * D :=
            mul_le_mul_of_nonneg_right h1 hDpos.le
        _ = D / 200 := by ring
    have h3 : |round (calculateRequiredSIP t y r * D) 2 - calculateRequiredSIP t y r * D|
        ≤ 1/200 := by
      rw [← hconv]
      exact round_err (calculateRequiredSIP t y r * D) 2
    have htri := abs_sub_le (round (calculateRequiredSIP t y r * D) 2)
      (calculateRequiredSIP t y r * D) t
    rw [hfv]
    linarith
  · intro t y
    norm_num [calculateRequiredSIP, annualToMonthlyRate]

/-- C6 witness: the roundtrip bound at target 10000, 1 year, 12%. -/
theorem calculateRequiredSIP_roundtrip_witness :
    0 < 1 ∧ 0 < (12:ℚ) ∧ 0 < calculateRequiredSIP 10000 1 12 ∧
    |maturityValueOf (calculateSIP (calculateRequiredSIP 10000 1 12) 1 12) - 10000| ≤
      (((1 + annualToMonthlyRate 12) ^ yearsToMonths 1 - 1) / annualToMonthlyRate 12 *
        (1 + annualToMonthlyRate 12) + 1) / 200 :=
  ⟨by norm_num, by norm_num,
    by norm_num [calculateRequiredSIP, annualToMonthlyRate, yearsToMonths, round, jsRound],
    calculateRequiredSIP_roundtrip.1 10000 12 1 (by norm_num) (by norm_num)
      (by norm_num [calculateRequiredSIP, annualToMonthlyRate, yearsToMonths, round, jsRound])⟩

/-- Membership in the sampling loop: when the fuel covers the remaining
iterations, the collected months are exactly the arithmetic progression
from the current `month` in steps of `interval`, cut off at
`totalMonths`. -/
theorem projLoop_mem (interval totalMonths : ℕ) (hi : 0 < interval) :
    ∀ (fuel month x : ℕ), totalMonths + 1 ≤ month + fuel →
      (x ∈ projLoop interval totalMonths fuel month ↔
        ∃ k, x = month + k * interval ∧ x ≤ totalMonths) := by
  intro fuel
  induction fuel with
  | zero =>
    intro month x hf
    simp only [projLoop, List.not_mem_nil, false_iff, not_exists, not_and]
    rintro k rfl hk
    have := Nat.le_add_right month (k * interval)
    omega
  | succ fuel ih =>
    intro month x hf
    simp only [projLoop]
    by_cases hm : month ≤ totalMonths
    · rw [if_pos hm]
      simp only [List.mem_cons]
      rw [ih (month + interval) x (by omega)]
      constructor
      · rintro (rfl | ⟨k, rfl, hk⟩)
        · exact ⟨0, by omega, hm⟩
        · exact ⟨k + 1, by ring, hk⟩
      · rintro ⟨k, rfl, hk⟩
        cases k with
        | zero => left; omega
        | succ k => right; exact ⟨k, by ring, hk⟩
    · rw [if_neg hm]
      simp only [List.not_mem_nil, false_iff, not_exists, not_and]
      rintro k rfl hk
      have := Nat.le_add_right month (k * interval)
      omega

/-- The sampling loop emits months in strictly increasing order. -/
theorem projLoop_sorted (interval totalMonths : ℕ) (hi : 0 < interval) :
    ∀ (fuel month : ℕ), totalMonths + 1 ≤ month + fuel →
      (projLoop interval totalMonths fuel month).Sorted (fun a b => a < b) := by
  intro fuel
  induction fuel with
  | zero =>
    intro month hf
    simp [projLoop]
  | succ fuel ih =>
    intro month hf
    simp only [projLoop]
    by_cases hm : month ≤ totalMonths
    · rw [if_pos hm, List.sorted_cons]
      refine ⟨?_, ih (month + interval) (by omega)⟩
      intro b hb
      rw [projLoop_mem interval totalMonths hi fuel (month + interval) b (by omega)] at hb
      obtain ⟨k, rfl, _⟩ := hb
      have := Nat.le_add_right (month + interval) (k * interval)
      omega
    · rw [if_neg hm]
      simp

/-- Membership in the full sample sequence: every positive multiple of
the interval up to `totalMonths`, plus the appended tail sample at
`totalMonths` exactly when `totalMonths` is not a multiple. -/
theorem sampleMonths_mem (interval totalMonths : ℕ) (hi : 0 < interval) (x : ℕ) :
    x ∈ sampleMonths interval totalMonths ↔
      (0 < x ∧ x ≤ totalMonths ∧ interval ∣ x) ∨
        (x = totalMonths ∧ ¬ interval ∣ totalMonths) := by
  unfold sampleMonths
  rw [List.mem_append,
    projLoop_mem interval totalMonths hi (totalMonths + 1) interval x (by omega)]
  have hdvd : ¬ interval ∣ totalMonths ↔ totalMonths % interval ≠ 0 := by
    rw [Nat.dvd_iff_mod_eq_zero]
  constructor
  · rintro (⟨k, rfl, hk⟩ | hx)
    · left
      refine ⟨by positivity, hk, k + 1, by ring⟩
    · right
      by_cases hmod : totalMonths % interval ≠ 0
      · rw [if_pos hmod] at hx
        simp only [List.mem_singleton] at hx
        exact ⟨hx, hdvd.mpr hmod⟩
      · rw [if_neg hmod] at hx
        simp at hx
  · rintro (⟨hx0, hxle, j, rfl⟩ | ⟨rfl, hnd⟩)
    · left
      cases j with
      | zero => omega
      | succ j => exact ⟨j, by ring, hxle⟩
    · right
      rw [if_pos (hdvd.mp hnd)]
      simp

/-- The full sample sequence is strictly increasing (the loop part is,
and every loop month is a multiple of the interval bounded by
`totalMonths`, hence strictly below a non-multiple `totalMonths`
tail). -/
theorem sampleMonths_sorted (interval totalMonths : ℕ) (hi : 0 < interval) :
    (sampleMonths interval totalMonths).Sorted (fun a b => a < b) := by
  unfold sampleMonths
  rw [List.Sorted, List.pairwise_append]
  refine ⟨projLoop_sorted interval totalMonths hi (totalMonths + 1) interval (by omega),
    ?_, ?_⟩
  · by_cases hmod : totalMonths % interval ≠ 0
    · rw [if_pos hmod]; simp
    · rw [if_neg hmod]; simp
  · intro a ha b hb
    rw [projLoop_mem interval totalMonths hi (totalMonths + 1) interval a (by omega)] at ha
    obtain ⟨k, rfl, hk⟩ := ha
    by_cases hmod : totalMonths % interval ≠ 0
    · rw [if_pos hmod] at hb
      simp only [List.mem_singleton] at hb
      subst hb
      rcases lt_or_eq_of_le hk with h | h
      · exact h
      · exfalso
        apply hmod
        rw [← h]
        simp [Nat.add_mul_mod_self_right]
    · rw [if_neg hmod] at hb
      simp at hb

/-- C7: the month sequence emitted by `calculateSIPProjections` is the
sampler sequence; for every positive interval it is strictly increasing
and contains each positive multiple of the interval up to the total
duration exactly once, with one extra final sample at the total
duration exactly when the duration is not a multiple of the interval;
and the interval=6 cases of duration 10 (tail appended) and duration 12
(no duplicate) come out as the spec requires. -/
theorem calculateSIPProjections_sampling :
    (∀ (m r : ℚ) (y interval : ℕ),
      (calculateSIPProjections m y r interval).months = sampleMonths interval (yearsToMonths y)) ∧
    (∀ interval totalMonths : ℕ, 0 < interval →
      (sampleMonths interval totalMonths).Sorted (fun a b => a < b) ∧
      (sampleMonths interval totalMonths).Nodup ∧
      (∀ x, x ∈ sampleMonths interval totalMonths ↔
        (0 < x ∧ x ≤ totalMonths ∧ interval ∣ x) ∨
          (x = totalMonths ∧ ¬ interval ∣ totalMonths))) ∧
    sampleMonths 6 10 = [6, 10] ∧
    sampleMonths 6 12 = [6, 12] := by
  refine ⟨fun m r y interval => rfl, fun interval totalMonths hi => ?_, by decide, by decide⟩
  refine ⟨sampleMonths_sorted interval totalMonths hi,
    (sampleMonths_sorted interval totalMonths hi).nodup,
    sampleMonths_mem interval totalMonths hi⟩

/-- C7 witness: the structural part applied at interval 6, duration 10. -/
theorem calculateSIPProjections_sampling_witness :
    0 < 6 ∧
    ((sampleMonths 6 10).Sorted (fun a b => a < b) ∧
      (sampleMonths 6 10).Nodup ∧
      (∀ x, x ∈ sampleMonths 6 10 ↔
        (0 < x ∧ x ≤ 10 ∧ 6 ∣ x) ∨ (x = 10 ∧ ¬ 6 ∣ 10))) :=
  ⟨by norm_num, calculateSIPProjections_sampling.2.1 6 10 (by norm_num)⟩

/-- C8 counterexample: a concrete exact tie between the two maturity
values on which the winner is designated `'Lump Sum'`, not `'SIP'`
(the SIP side of 1000/month over 1 year at 12% matures to 12809.33;
a lump sum of 1280933/112 grows to exactly the same rounded value). -/
theorem compareSIPvsLumpSum_tie_counterexample :
    maturityValueOf (calculateSIP 1000 1 12) =
      (calculateLumpSum (1280933/112) 1 12).maturityValue ∧
    comparisonWinner (compareSIPvsLumpSum 1000 (1280933/112) 1 12) ≠ some ("SIP") ∧
    comparisonWinner (compareSIPvsLumpSum 1000 (1280933/112) 1 12) = some ("Lump Sum") := by
  have hsip : calculateSIP 1000 1 12 = Except.ok {
      monthlyAmount := 1000, years := 1, months := 12, annualReturns := 12,
      monthlyRate := 0.01, totalInvested := 12000, maturityValue := 12809.33,
      returns := 809.33, returnPercentage := 6.74 } := by
    simp only [calculateSIP, yearsToMonths, annualToMonthlyRate, round, jsRound]
    norm_num
  have hlump : (calculateLumpSum (1280933/112) 1 12).maturityValue = 12809.33 := by
    simp only [calculateLumpSum, round, jsRound]
    norm_num
  have hcomp : comparisonWinner (compareSIPvsLumpSum 1000 (1280933/112) 1 12) =
      some ("Lump Sum") := by
    simp only [compareSIPvsLumpSum, hsip, Except.map, comparisonWinner]
    rw [if_neg]
    rw [hlump]
    norm_num
  refine ⟨by rw [hsip, maturityValueOf_ok, hlump], ?_, hcomp⟩
  rw [hcomp]
  simp

/-- C8 (amended): whenever the call succeeds and the two rounded
maturity values are exactly equal, the designated winner is
deterministically `'Lump Sum'` (the strict `>` comparison fails on a
tie and falls to the else branch). -/
theorem compareSIPvsLumpSum_tie_winner (monthlySIP lumpSumAmount r : ℚ) (y : ℕ)
    (hok : isError (calculateSIP monthlySIP y r) = false)
    (htie : maturityValueOf (calculateSIP monthlySIP y r) =
      (calculateLumpSum lumpSumAmount y r).maturityValue) :
    comparisonWinner (compareSIPvsLumpSum monthlySIP lumpSumAmount y r) = some ("Lump Sum") := by
  unfold compareSIPvsLumpSum
  cases hcall : calculateSIP monthlySIP y r with
  | error e =>
    rw [hcall] at hok
    simp [isError] at hok
  | ok sipResult =>
    rw [hcall, maturityValueOf_ok] at htie
    simp only [Except.map, comparisonWinner]
    rw [if_neg]
    rw [htie]
    exact lt_irrefl _

/-- C8 witness: the amended tie rule applied at the concrete tie. -/
theorem compareSIPvsLumpSum_tie_winner_witness :
    isError (calculateSIP 2000 2 10) = false ∧
    maturityValueOf (calculateSIP 2000 2 10) =
      (calculateLumpSum ((maturityValueOf (calculateSIP 2000 2 10)) / ((1 + 10/100) ^ 2)) 2
        10).maturityValue ∧
    comparisonWinner (compareSIPvsLumpSum 2000
      ((maturityValueOf (calculateSIP 2000 2 10)) / ((1 + 10/100) ^ 2)) 2 10) =
      some ("Lump Sum") := by
  have h1 : isError (calculateSIP 2000 2 10) = false := by
    simp only [calculateSIP, yearsToMonths, annualToMonthlyRate, isError]
    norm_num
  have h2 : maturityValueOf (calculateSIP 2000 2 10) =
      (calculateLumpSum ((maturityValueOf (calculateSIP 2000 2 10)) / ((1 + 10/100) ^ 2)) 2
        10).maturityValue := by
    simp only [calculateSIP, calculateLumpSum, yearsToMonths, annualToMonthlyRate,
      maturityValueOf, round, jsRound]
    norm_num
  exact ⟨h1, h2, compareSIPvsLumpSum_tie_winner 2000
    ((maturityValueOf (calculateSIP 2000 2 10)) / ((1 + 10/100) ^ 2)) 10 2 h1 h2⟩

end SIPCalc
